import Mathlib

/-!
Shallow embedding of the google-calendar MCP server repository
(src/calendar_agent.py, src/calendar_service.py, src/calendar_mcp_server.py,
src/mcp_server_streamable.py).

Python dictionaries that mirror Google event resources are embedded as
structures of `Option` fields: `none` models an absent key.  Uncaught Python
exceptions are modelled by an explicit `raised` outcome; the `{"error": ...}`
dictionaries returned by `CalendarAgent` are the `failure` outcome.  The
external Google API and the SMTP relay are stubs passed in as parameters:
`ServiceStub` holds the responses of the external calendar API, and
`sendFails : String → Bool` tells which recipients the SMTP send raises for.
Every operation returns, besides its outcome, the trace of external API calls
made and of notification e-mails whose send was attempted, in order.
-/

namespace GCal

/-- Outcome of a Python method call: a normal return of a success dictionary,
a returned `{"error": msg}` dictionary, or an uncaught exception. -/
inductive GcOutcome (ρ : Type) where
  | ok : ρ → GcOutcome ρ
  | failure : String → GcOutcome ρ
  | raised : String → GcOutcome ρ
  deriving Repr, DecidableEq

/-- The `start`/`end` sub-dictionary of a Google event resource. -/
structure GTime where
  dateTime : Option String
  date : Option String
  deriving Repr, DecidableEq

/-- One element of `conferenceData.entryPoints`. -/
structure EntryPoint where
  entryPointType : Option String
  uri : Option String
  deriving Repr, DecidableEq

/-- The `conferenceData` sub-dictionary: `hasCreateRequest` models the
presence of a `createRequest` key (its request id is a timestamp, irrelevant
to behaviour), `entryPoints` the optional entry-point list. -/
structure ConferenceData where
  hasCreateRequest : Bool
  entryPoints : Option (List EntryPoint)
  deriving Repr, DecidableEq

/-- A Google event resource as fetched from / returned by the external API.
Attendees are modelled by their e-mail strings (the code only ever reads
`a['email']` and writes `{'email': e}`). -/
structure GEvent where
  id : Option String
  summary : Option String
  description : Option String
  start : Option GTime
  end_ : Option GTime
  attendees : Option (List String)
  conferenceData : Option ConferenceData
  htmlLink : Option String
  deriving Repr, DecidableEq

/-- The body built by `create_calendar_event` (calendar_agent.py lines
96-123) and sent to `events().insert`.  The `attendees` key is present only
when the argument is truthy; `requestConference` models the presence of the
`conferenceData.createRequest` key. -/
structure CreateBody where
  summary : String
  description : Option String
  startDateTime : String
  startTimeZone : String
  endDateTime : String
  endTimeZone : String
  remindersUseDefault : Bool
  reminderEmailMinutes : Nat
  reminderPopupMinutes : Nat
  attendees : Option (List String)
  requestConference : Bool
  deriving Repr, DecidableEq

/-- One call to the external Google Calendar API, with its payload. -/
inductive ExtCall where
  | listEvents : ExtCall
  | insert (body : CreateBody) (conferenceDataVersion : Nat) : ExtCall
  | get (eventId : String) : ExtCall
  | update (eventId : String) (body : GEvent) (conferenceDataVersion : Nat) : ExtCall
  | delete (eventId : String) : ExtCall
  deriving Repr, DecidableEq

/-- One e-mail handed to `_send_meeting_email`, with its three arguments. -/
structure EmailMessage where
  to_email : String
  subject : String
  body : String
  deriving Repr, DecidableEq

/-- Stub of the external Google Calendar API: the response each endpoint
would give. -/
structure ServiceStub where
  listResult : Except String (List GEvent)
  insertResult : CreateBody → Except String GEvent
  getResult : String → Except String GEvent
  updateResult : String → GEvent → Except String GEvent
  deleteResult : String → Except String Unit

/-- Result of one agent operation: the outcome plus the trace of external
API calls and of attempted notification sends, each in program order. -/
structure AgentRun (ρ : Type) where
  outcome : GcOutcome ρ
  extCalls : List ExtCall
  sends : List EmailMessage
  deriving Repr, DecidableEq

/-- Python truthiness of an optional list (`if attendees:`): `None` and the
empty list are falsy. -/
def listTruthy : Option (List String) → Bool
  | none => false
  | some [] => false
  | some (_ :: _) => true

/-- Python truthiness of an optional string (`if meet_link:`). -/
def strTruthy : Option String → Bool
  | none => false
  | some s => !s.isEmpty

/-- Python `x or ''` for an optional string. -/
def orEmpty : Option String → String
  | none => ""
  | some s => s

/-- Python str() of an optional value inside an f-string: `None` prints as
the literal string "None". -/
def pyStr : Option String → String
  | none => "None"
  | some s => s

/-- Python `t.get('dateTime', t.get('date'))` on a start/end
sub-dictionary. -/
def gtimeOpt (t : GTime) : Option String :=
  match t.dateTime with
  | some s => some s
  | none => t.date

/-- Python `t.get('dateTime', t.get('date', ''))`. -/
def gtimeStr (t : GTime) : String :=
  (gtimeOpt t).getD ""

/-- The loop of calendar_agent.py lines 132-136 / 213-217: scan the entry
points; the last one with `entryPointType == 'video'` wins.  Returns `none`
when no video entry point exists (the `hangoutLink` key is then never set),
`some uri` otherwise (`uri` itself may be absent). -/
def extractVideoUri (eps : List EntryPoint) : Option (Option String) :=
  eps.foldl (fun acc ep => if ep.entryPointType = some "video" then some ep.uri else acc) none

/-- The final value of the Python variable `meet_link`: `None` when no
video entry point was seen, otherwise the last video entry point's uri. -/
def flatOpt : Option (Option String) → Option String
  | none => none
  | some u => u

/-- The guard `add_meet_link and 'conferenceData' in result and 'entryPoints'
in result['conferenceData']` followed by the video-entry-point scan. -/
def meetInfo (addMeetLink : Bool) (result : GEvent) : Option (Option String) :=
  if addMeetLink then
    match result.conferenceData with
    | some cd =>
      match cd.entryPoints with
      | some eps => extractVideoUri eps
      | none => none
    | none => none
  else none

/-- The send loop `for attendee in attendees: self._send_meeting_email(...)`.
There is no per-recipient exception handling in the source: the first
raising send aborts the loop.  Returns the messages whose send was attempted
(the raising one included) and the exception, if any. -/
def sendEmails (sendFails : String → Bool) (subject body : String) :
    List String → List EmailMessage × Option String
  | [] => ([], none)
  | a :: rest =>
    if sendFails a then
      ([⟨a, subject, body⟩], some ("SMTP error sending to " ++ a))
    else
      let (ms, r) := sendEmails sendFails subject body rest
      (⟨a, subject, body⟩ :: ms, r)

/-- One projected entry of the list response: `{id, summary, start}`
(calendar_agent.py lines 73-77). -/
structure ListedEvent where
  id : String
  summary : String
  start : Option String
  deriving Repr, DecidableEq

/-- The success body of `list_upcoming_events`. -/
structure ListResponse where
  message : String
  events : List ListedEvent
  deriving Repr, DecidableEq

/-- Projection of one fetched event (calendar_agent.py lines 72-77), in
Python evaluation order: `event["start"]` first, then `event["id"]`, then
`event["summary"]`; a missing key raises `KeyError`. -/
def projectEvent (e : GEvent) : Except String ListedEvent :=
  match e.start with
  | none => .error "KeyError: start"
  | some st =>
    match e.id with
    | none => .error "KeyError: id"
    | some i =>
      match e.summary with
      | none => .error "KeyError: summary"
      | some s => .ok ⟨i, s, gtimeOpt st⟩

/-- The projection loop over all fetched events; the first raising event
aborts it. -/
def projectEvents : List GEvent → Except String (List ListedEvent)
  | [] => .ok []
  | e :: rest =>
    match projectEvent e with
    | .error m => .error m
    | .ok pe =>
      match projectEvents rest with
      | .error m => .error m
      | .ok pes => .ok (pe :: pes)

/-- The success body of create/update: `message`, `event_link`, and the
`hangoutLink` key, which is present (outer `some`) only when the
video-entry-point scan fired; its value is the last video uri (itself
optional). -/
structure MutationResponse where
  message : String
  event_link : Option String
  hangoutLink : Option (Option String)
  deriving Repr, DecidableEq

/-- The success body of `delete_event`. -/
structure DeleteResponse where
  message : String
  deriving Repr, DecidableEq

/-- The invitation e-mail body of `create_calendar_event` (calendar_agent.py
lines 140-147), built from the request arguments, the extracted meet link
and the insert result's `htmlLink` (Python renders `None` as "None" inside
an f-string). -/
def createEmailBody (summary : String) (description : Option String)
    (start_time end_time : String) (meet_link : Option String)
    (htmlLink : Option String) : String :=
  "\n                <h3>" ++ summary ++ "</h3>\n                <p><b>Description:</b> "
    ++ orEmpty description ++ "</p>\n                <p><b>Start:</b> " ++ start_time
    ++ "</p>\n                <p><b>End:</b> " ++ end_time ++ "</p>\n                "
    ++ (if strTruthy meet_link then
          "<p><b>Google Meet Link:</b> <a href=\"" ++ orEmpty meet_link ++ "\">"
            ++ orEmpty meet_link ++ "</a></p>"
        else "")
    ++ "\n                <p>Event Link: <a href='" ++ pyStr htmlLink ++ "'>"
    ++ pyStr htmlLink ++ "</a></p>\n                "

/-- The cancellation e-mail body of `delete_event` (calendar_agent.py lines
169-175); `summary`, `description`, `start_time`, `end_time` are the strings
already extracted from the fetched event. -/
def deleteEmailBody (summary description start_time end_time : String) : String :=
  "\n                <h3>Meeting Cancelled: " ++ summary
    ++ "</h3>\n                <p><b>Description:</b> "
    ++ (if description.isEmpty then "" else description)
    ++ "</p>\n                <p><b>Start:</b> " ++ start_time
    ++ "</p>\n                <p><b>End:</b> " ++ end_time
    ++ "</p>\n                <p>This meeting has been cancelled.</p>\n                "

/-- The update e-mail body of `update_event` (calendar_agent.py lines
222-229), built entirely from the post-update event returned by the external
API (plus the extracted meet link).  Callers guard the `start`/`end` key
accesses, which raise in Python when absent. -/
def updateEmailBody (u : GEvent) (meet_link : Option String) : String :=
  "\n                <h3>Meeting Updated: " ++ u.summary.getD ""
    ++ "</h3>\n                <p><b>Description:</b> " ++ u.description.getD ""
    ++ "</p>\n                <p><b>Start:</b> "
    ++ (match u.start with | some t => gtimeStr t | none => "")
    ++ "</p>\n                <p><b>End:</b> "
    ++ (match u.end_ with | some t => gtimeStr t | none => "")
    ++ "</p>\n                "
    ++ (if strTruthy meet_link then
          "<p><b>Google Meet Link:</b> <a href=\"" ++ orEmpty meet_link ++ "\">"
            ++ orEmpty meet_link ++ "</a></p>"
        else "")
    ++ "\n                <p>Event Link: <a href='" ++ pyStr u.htmlLink ++ "'>"
    ++ pyStr u.htmlLink ++ "</a></p>\n                "

/-- CalendarAgent.list_upcoming_events (calendar_agent.py lines 48-81).
`service = none` models `self.service` being `None`. -/
def list_upcoming_events (service : Option ServiceStub) : AgentRun ListResponse :=
  match service with
  | none => ⟨.failure "Google Calendar service not available", [], []⟩
  | some stub =>
    match stub.listResult with
    | .error m => ⟨.failure ("An error occurred: " ++ m), [.listEvents], []⟩
    | .ok items =>
      if items.isEmpty then
        ⟨.ok ⟨"No upcoming events found.", []⟩, [.listEvents], []⟩
      else
        match projectEvents items with
        | .error m => ⟨.raised m, [.listEvents], []⟩
        | .ok evs => ⟨.ok ⟨"Upcoming events retrieved successfully", evs⟩, [.listEvents], []⟩

/-- CalendarAgent.create_calendar_event (calendar_agent.py lines 92-152).
The insert call is always recorded once made; an SMTP exception raised while
notifying attendees is NOT an `HttpError`, so it escapes the
`except HttpError` handler and aborts the remaining sends. -/
def create_calendar_event (service : Option ServiceStub) (sendFails : String → Bool)
    (summary start_time end_time : String) (attendees : Option (List String))
    (description : Option String) (add_meet_link : Bool) : AgentRun MutationResponse :=
  match service with
  | none => ⟨.failure "Google Calendar service not available", [], []⟩
  | some stub =>
    let event : CreateBody :=
      { summary := summary
        description := description
        startDateTime := start_time
        startTimeZone := "America/Los_Angeles"
        endDateTime := end_time
        endTimeZone := "America/Los_Angeles"
        remindersUseDefault := false
        reminderEmailMinutes := 24 * 60
        reminderPopupMinutes := 10
        attendees := if listTruthy attendees then attendees else none
        requestConference := add_meet_link }
    let cdv := if add_meet_link then 1 else 0
    match stub.insertResult event with
    | .error m => ⟨.failure ("An error occurred: " ++ m), [.insert event cdv], []⟩
    | .ok event_result =>
      let info := meetInfo add_meet_link event_result
      let meet_link := flatOpt info
      let response : MutationResponse :=
        ⟨"Event created successfully", event_result.htmlLink, info⟩
      if listTruthy attendees then
        let subj := "Invitation: " ++ summary
        let ebody := createEmailBody summary description start_time end_time
          meet_link event_result.htmlLink
        let sent := sendEmails sendFails subj ebody (attendees.getD [])
        match sent.2 with
        | some exc => ⟨.raised exc, [.insert event cdv], sent.1⟩
        | none => ⟨.ok response, [.insert event cdv], sent.1⟩
      else
        ⟨.ok response, [.insert event cdv], []⟩

/-- Python `event['start']['dateTime'] = start_time` (calendar_agent.py line
194): raises `KeyError` when the fetched event has no `start` key. -/
def setStart (e : GEvent) : Option String → Except String GEvent
  | none => .ok e
  | some st =>
    match e.start with
    | none => .error "KeyError: start"
    | some t => .ok { e with start := some { t with dateTime := some st } }

/-- Python `event['end']['dateTime'] = end_time` (calendar_agent.py line
196). -/
def setEnd (e : GEvent) : Option String → Except String GEvent
  | none => .ok e
  | some et =>
    match e.end_ with
    | none => .error "KeyError: end"
    | some t => .ok { e with end_ := some { t with dateTime := some et } }

/-- The field-by-field mutation of the fetched event (calendar_agent.py
lines 189-204), in source order: summary, description, start, end,
attendees, conferenceData. -/
def applyUpdates (e : GEvent) (summary start_time end_time : Option String)
    (atts : Option (List String)) (description : Option String)
    (add_meet_link : Bool) : Except String GEvent := do
  let e := match summary with | some s => { e with summary := some s } | none => e
  let e := match description with | some d => { e with description := some d } | none => e
  let e ← setStart e start_time
  let e ← setEnd e end_time
  let e := match atts with | some l => { e with attendees := some l } | none => e
  let e := if add_meet_link then
    { e with conferenceData := some ⟨true, none⟩ } else e
  .ok e

/-- CalendarAgent.update_event (calendar_agent.py lines 183-234): fetch,
mutate, persist, extract the meet link, then notify the attendee list of the
post-update event returned by the API.  Building the e-mail body accesses
`updated_event['start']` and `['end']`, which raise when absent; a raising
SMTP send aborts the remaining sends and escapes the `except HttpError`
handler. -/
def update_event (service : Option ServiceStub) (sendFails : String → Bool)
    (event_id : String) (summary start_time end_time : Option String)
    (attendees : Option (List String)) (description : Option String)
    (add_meet_link : Bool) : AgentRun MutationResponse :=
  match service with
  | none => ⟨.failure "Google Calendar service not available", [], []⟩
  | some stub =>
    match stub.getResult event_id with
    | .error m => ⟨.failure ("An error occurred: " ++ m), [.get event_id], []⟩
    | .ok event =>
      match applyUpdates event summary start_time end_time attendees description add_meet_link with
      | .error exc => ⟨.raised exc, [.get event_id], []⟩
      | .ok body =>
        let cdv := if add_meet_link then 1 else 0
        match stub.updateResult event_id body with
        | .error m =>
          ⟨.failure ("An error occurred: " ++ m), [.get event_id, .update event_id body cdv], []⟩
        | .ok updated_event =>
          let info := meetInfo add_meet_link updated_event
          let meet_link := flatOpt info
          let response : MutationResponse :=
            ⟨"Event updated successfully", updated_event.htmlLink, info⟩
          let attendees_list := updated_event.attendees.getD []
          let calls := [ExtCall.get event_id, .update event_id body cdv]
          if attendees_list.isEmpty then
            ⟨.ok response, calls, []⟩
          else
            match updated_event.start with
            | none => ⟨.raised "KeyError: start", calls, []⟩
            | some _ =>
              match updated_event.end_ with
              | none => ⟨.raised "KeyError: end", calls, []⟩
              | some _ =>
                let subj := "UPDATED: " ++ updated_event.summary.getD "Meeting"
                let ebody := updateEmailBody updated_event meet_link
                let sent := sendEmails sendFails subj ebody attendees_list
                match sent.2 with
                | some exc => ⟨.raised exc, calls, sent.1⟩
                | none => ⟨.ok response, calls, sent.1⟩

/-- CalendarAgent.delete_event (calendar_agent.py lines 154-181): fetch the
event, extract attendees and details (`event['start']` / `event['end']`
raise when absent), send cancellation mails, then delete.  A raising SMTP
send escapes the `except HttpError` handler, so the delete call is never
reached. -/
def delete_event (service : Option ServiceStub) (sendFails : String → Bool)
    (event_id : String) : AgentRun DeleteResponse :=
  match service with
  | none => ⟨.failure "Google Calendar service not available", [], []⟩
  | some stub =>
    match stub.getResult event_id with
    | .error m => ⟨.failure ("An error occurred: " ++ m), [.get event_id], []⟩
    | .ok event =>
      let attendees := event.attendees.getD []
      let summary := event.summary.getD "Meeting"
      match event.start with
      | none => ⟨.raised "KeyError: start", [.get event_id], []⟩
      | some st =>
        match event.end_ with
        | none => ⟨.raised "KeyError: end", [.get event_id], []⟩
        | some et =>
          let start_time := gtimeStr st
          let end_time := gtimeStr et
          let description := event.description.getD ""
          let sent : List EmailMessage × Option String :=
            if attendees.isEmpty then ([], none)
            else
              sendEmails sendFails ("CANCELLED: " ++ summary)
                (deleteEmailBody summary description start_time end_time) attendees
          match sent.2 with
          | some exc => ⟨.raised exc, [.get event_id], sent.1⟩
          | none =>
            match stub.deleteResult event_id with
            | .error m =>
              ⟨.failure ("An error occurred: " ++ m), [.get event_id, .delete event_id], sent.1⟩
            | .ok _ =>
              ⟨.ok ⟨"Event with ID " ++ event_id ++ " deleted successfully."⟩,
                [.get event_id, .delete event_id], sent.1⟩

/-- A Python exception as seen by the `/schedule` endpoint's
`except Exception` handler: either a FastAPI `HTTPException` (whose `str` is
"status: detail", per starlette) or any other exception (whose `str` is its
message). -/
inductive PyExc where
  | httpExc (status : Nat) (detail : String)
  | other (msg : String)
  deriving Repr, DecidableEq

/-- Python `str(e)` for the exceptions above. -/
def PyExc.str : PyExc → String
  | .httpExc st d => toString st ++ ": " ++ d
  | .other m => m

/-- A response of the HTTP Facade: a 200 JSON body, or an `HTTPException`
rendered as its status and `{"detail": ...}` body. -/
inductive FacadeResponse (ρ : Type) where
  | body (b : ρ) : FacadeResponse ρ
  | httpError (status : Nat) (detail : String) : FacadeResponse ρ
  deriving Repr, DecidableEq

/-- The `POST /schedule` request model (calendar_service.py lines 28-34);
`add_meet_link` defaults to false. -/
structure CreateEventRequest where
  summary : String
  start_time : String
  end_time : String
  attendees : Option (List String)
  description : Option String
  add_meet_link : Bool
  deriving Repr, DecidableEq

/-- The `POST /schedule` endpoint (calendar_service.py lines 76-95).
`agent = none` models a failed `CalendarAgent` construction; otherwise the
inner option is `CalendarAgent.service`.  The body of the `try` is modelled
by an `Except PyExc`: the agent raising is an ordinary exception, and an
`{"error": ...}` result triggers `raise HTTPException(400, detail)` — which
the endpoint's own `except Exception` then catches and re-wraps into
`HTTPException(500, "Failed to schedule event: " + str(e))`. -/
def schedule_event (agent : Option (Option ServiceStub)) (sendFails : String → Bool)
    (req : CreateEventRequest) : FacadeResponse MutationResponse :=
  match agent with
  | none => .httpError 500 "Calendar agent not initialized"
  | some service =>
    let run := create_calendar_event service sendFails req.summary req.start_time
      req.end_time req.attendees req.description req.add_meet_link
    let tryBlock : Except PyExc MutationResponse :=
      match run.outcome with
      | .raised m => .error (.other m)
      | .failure m => .error (.httpExc 400 m)
      | .ok r => .ok r
    match tryBlock with
    | .ok r => .body r
    | .error e => .httpError 500 ("Failed to schedule event: " ++ e.str)

/-- Result of one MCP tool invocation (mcp_server_streamable.py lines
126-133): the Facade's JSON body on success, `{"error": str(e)}` when the
client raised. -/
inductive ToolResult (ρ : Type) where
  | success (r : ρ) : ToolResult ρ
  | toolError (msg : String) : ToolResult ρ
  deriving Repr, DecidableEq

/-- CalendarServiceClient.list_upcoming_events (calendar_mcp_server.py lines
51-59 and mcp_server_streamable.py lines 46-54, identical): raise
`RuntimeError(f"HTTP {status}: {text}")` on any status other than 200, else
return the parsed JSON body. -/
def clientListUpcomingEvents (status : Nat) (bodyText : String)
    (jsonBody : ListResponse) : Except String ListResponse :=
  if status ≠ 200 then .error ("HTTP " ++ toString status ++ ": " ++ bodyText)
  else .ok jsonBody

/-- The `list_upcoming_events` tool (mcp_server_streamable.py lines 125-133):
forward to the client, turning a raised exception into `{"error": str(e)}`;
the stdio adapter's handler (calendar_mcp_server.py lines 193-233) likewise
re-raises `RuntimeError(str(e))`, so in both adapters a non-200 response
yields a tool-level error with the client's message and no success value. -/
def tool_list_upcoming_events (status : Nat) (bodyText : String)
    (jsonBody : ListResponse) : ToolResult ListResponse :=
  match clientListUpcomingEvents status bodyText jsonBody with
  | .ok r => .success r
  | .error m => .toolError m

/-- Python truthiness of an `Optional[bool]` (`if add_meet_link:`): `None`
and `False` are falsy. -/
def boolTruthy : Option Bool → Bool
  | none => false
  | some b => b

/-- The JSON payload the adapters' create method posts to `/schedule`
(calendar_mcp_server.py lines 71-81 / mcp_server_streamable.py lines 66-76):
`summary`, `start_time`, `end_time` always; `attendees`, `description` and
`add_meet_link` only when truthy. -/
structure CreatePayload where
  summary : String
  start_time : String
  end_time : String
  attendees : Option (List String)
  description : Option String
  add_meet_link : Option Bool
  deriving Repr, DecidableEq

/-- The JSON payload the adapters' update method puts to `/event/update`
(calendar_mcp_server.py lines 105-117 / mcp_server_streamable.py lines
100-112): `event_id` always; `summary`, `start_time`, `end_time`,
`attendees`, `description` when not `None`; `add_meet_link` when truthy. -/
structure UpdatePayload where
  event_id : String
  summary : Option String
  start_time : Option String
  end_time : Option String
  attendees : Option (List String)
  description : Option String
  add_meet_link : Option Bool
  deriving Repr, DecidableEq

/-- CalendarServiceClient.create_calendar_event (calendar_mcp_server.py
lines 61-89 and mcp_server_streamable.py lines 56-84, identical): marshal
the arguments into the `/schedule` payload, POST it, and raise
`RuntimeError(f"HTTP {status}: {text}")` on any status other than 200, else
return the parsed JSON body.  The marshalled payload is returned alongside
the outcome. -/
def clientCreateCalendarEvent (status : Nat) (bodyText : String)
    (jsonBody : MutationResponse) (summary start_time end_time : String)
    (attendees : Option (List String)) (description : Option String)
    (add_meet_link : Option Bool) : CreatePayload × Except String MutationResponse :=
  let payload : CreatePayload :=
    { summary := summary
      start_time := start_time
      end_time := end_time
      attendees := if listTruthy attendees then attendees else none
      description := if strTruthy description then description else none
      add_meet_link := if boolTruthy add_meet_link then add_meet_link else none }
  (payload,
   if status ≠ 200 then .error ("HTTP " ++ toString status ++ ": " ++ bodyText)
   else .ok jsonBody)

/-- CalendarServiceClient.delete_event (calendar_mcp_server.py lines 91-101
and mcp_server_streamable.py lines 86-96, identical): send
`{"event_id": event_id}` to DELETE `/event`; raise
`RuntimeError(f"HTTP {status}: {text}")` on any status other than 200. -/
def clientDeleteEvent (status : Nat) (bodyText : String)
    (jsonBody : DeleteResponse) (event_id : String) :
    String × Except String DeleteResponse :=
  (event_id,
   if status ≠ 200 then .error ("HTTP " ++ toString status ++ ": " ++ bodyText)
   else .ok jsonBody)

/-- CalendarServiceClient.update_event (calendar_mcp_server.py lines 103-125
and mcp_server_streamable.py lines 98-120, identical): marshal the
arguments into the `/event/update` payload, PUT it, and raise
`RuntimeError(f"HTTP {status}: {text}")` on any status other than 200. -/
def clientUpdateEvent (status : Nat) (bodyText : String)
    (jsonBody : MutationResponse) (event_id : String)
    (summary start_time end_time : Option String) (attendees : Option (List String))
    (description : Option String) (add_meet_link : Option Bool) :
    UpdatePayload × Except String MutationResponse :=
  let payload : UpdatePayload :=
    { event_id := event_id
      summary := summary
      start_time := start_time
      end_time := end_time
      attendees := attendees
      description := description
      add_meet_link := if boolTruthy add_meet_link then add_meet_link else none }
  (payload,
   if status ≠ 200 then .error ("HTTP " ++ toString status ++ ": " ++ bodyText)
   else .ok jsonBody)

/-- The `create_calendar_event` tool (mcp_server_streamable.py lines
135-167): forward to the client, turning a raised exception into
`{"error": str(e)}`; the stdio adapter's handler (calendar_mcp_server.py
lines 193-233) likewise re-raises `RuntimeError(str(e))`. -/
def tool_create_calendar_event (status : Nat) (bodyText : String)
    (jsonBody : MutationResponse) (summary start_time end_time : String)
    (attendees : Option (List String)) (description : Option String)
    (add_meet_link : Option Bool) : ToolResult MutationResponse :=
  match (clientCreateCalendarEvent status bodyText jsonBody summary start_time end_time
      attendees description add_meet_link).2 with
  | .ok r => .success r
  | .error m => .toolError m

/-- The `delete_event` tool (mcp_server_streamable.py lines 169-182):
forward to the client, turning a raised exception into
`{"error": str(e)}`. -/
def tool_delete_event (status : Nat) (bodyText : String)
    (jsonBody : DeleteResponse) (event_id : String) : ToolResult DeleteResponse :=
  match (clientDeleteEvent status bodyText jsonBody event_id).2 with
  | .ok r => .success r
  | .error m => .toolError m

/-- The `update_event` tool (mcp_server_streamable.py lines 184-219):
forward to the client, turning a raised exception into
`{"error": str(e)}`. -/
def tool_update_event (status : Nat) (bodyText : String)
    (jsonBody : MutationResponse) (event_id : String)
    (summary start_time end_time : Option String) (attendees : Option (List String))
    (description : Option String) (add_meet_link : Option Bool) :
    ToolResult MutationResponse :=
  match (clientUpdateEvent status bodyText jsonBody event_id summary start_time end_time
      attendees description add_meet_link).2 with
  | .ok r => .success r
  | .error m => .toolError m

/-- A sample Google event resource with two attendees and an allocated video
conference entry point, used to instantiate the stubs below. -/
def wEvent : GEvent :=
  { id := some "id1"
    summary := some "Standup"
    description := some "daily sync"
    start := some ⟨some "2030-01-01T10:00:00-07:00", none⟩
    end_ := some ⟨some "2030-01-01T11:00:00-07:00", none⟩
    attendees := some ["a@x.com", "b@y.com"]
    conferenceData := some ⟨false, some [⟨some "video", some "https://meet.google.com/abc"⟩]⟩
    htmlLink := some "https://calendar.google.com/event/1" }

/-- A stub external API on which every call succeeds: insert and get return
`wEvent`, update echoes the payload it is given. -/
def okStub : ServiceStub :=
  { listResult := .ok [wEvent]
    insertResult := fun _ => .ok wEvent
    getResult := fun _ => .ok wEvent
    updateResult := fun _ b => .ok b
    deleteResult := fun _ => .ok () }

/-- A stub external API that rejects insert requests (e.g. quota). -/
def rejectStub : ServiceStub :=
  { okStub with insertResult := fun _ => .error "quota exceeded" }

/-- The sample event with its attendee list absent. -/
def noAttEvent : GEvent :=
  { wEvent with attendees := none }

/-- A stub whose get returns an event without attendees. -/
def noAttStub : ServiceStub :=
  { okStub with getResult := fun _ => .ok noAttEvent }

/-- The sample event with its summary key absent. -/
def noSummaryEvent : GEvent :=
  { wEvent with summary := none }

/-- String concatenation is associative (via the underlying character
lists). -/
theorem strAppendAssoc : ∀ a b c : String, a ++ b ++ c = a ++ (b ++ c)
  | ⟨a⟩, ⟨b⟩, ⟨c⟩ => by simp [String.congr_append, List.append_assoc]

/-- Appending the empty string on the right is the identity. -/
theorem strAppendEmpty : ∀ a : String, a ++ "" = a
  | ⟨a⟩ => by simp [String.congr_append]

/-- When every send succeeds, the send loop attempts one e-mail per
recipient, in list order. -/
theorem sendEmails_all_ok (f : String → Bool) (subj bd : String) :
    ∀ l : List String, (∀ a ∈ l, f a = false) →
      sendEmails f subj bd l = (l.map fun a => ⟨a, subj, bd⟩, none)
  | [], _ => rfl
  | a :: rest, h => by
    have ha : f a = false := h a (by simp)
    have ih := sendEmails_all_ok f subj bd rest (fun x hx => h x (by simp [hx]))
    simp [sendEmails, ha, ih]

/-- When the send to `b` is the first to raise, the loop attempts exactly
the recipients before `b` plus `b` itself, then propagates the exception:
the recipients after `b` are never attempted. -/
theorem sendEmails_first_fail (f : String → Bool) (subj bd : String) :
    ∀ (pre : List String) (b : String) (post : List String),
      (∀ a ∈ pre, f a = false) → f b = true →
      sendEmails f subj bd (pre ++ b :: post)
        = ((pre.map fun a => ⟨a, subj, bd⟩) ++ [⟨b, subj, bd⟩],
           some ("SMTP error sending to " ++ b))
  | [], b, post, _, hb => by simp [sendEmails, hb]
  | a :: pre, b, post, h, hb => by
    have ha : f a = false := h a (by simp)
    have ih := sendEmails_first_fail f subj bd pre b post (fun x hx => h x (by simp [hx])) hb
    simp [sendEmails, ha, ih]

/-- An event whose `summary` key is absent makes the per-event projection
raise (possibly a `KeyError` for `start` or `id` first, but it never
returns normally). -/
theorem projectEvent_error_of_no_summary (e : GEvent) (hs : e.summary = none) :
    ∃ m, projectEvent e = .error m := by
  rcases hst : e.start with _ | st
  · exact ⟨"KeyError: start", by simp [projectEvent, hst]⟩
  · rcases hid : e.id with _ | i
    · exact ⟨"KeyError: id", by simp [projectEvent, hst, hid]⟩
    · exact ⟨"KeyError: summary", by simp [projectEvent, hst, hid, hs]⟩

/-- If any fetched event lacks its `summary` key, the projection loop
raises. -/
theorem projectEvents_error_of_no_summary :
    ∀ items : List GEvent, (∃ e ∈ items, e.summary = none) →
      ∃ m, projectEvents items = .error m
  | [], h => by simp at h
  | e :: rest, h => by
    rcases he : projectEvent e with m | pe
    · exact ⟨m, by simp [projectEvents, he]⟩
    · rcases h with ⟨x, hx, hs⟩
      rcases List.mem_cons.mp hx with rfl | hx'
      · rcases projectEvent_error_of_no_summary x hs with ⟨m, hm⟩
        rw [he] at hm
        exact absurd hm (by simp)
      · rcases projectEvents_error_of_no_summary rest ⟨x, hx', hs⟩ with ⟨m, hm⟩
        exact ⟨m, by simp [projectEvents, he, hm]⟩

/-- An event carrying `id`, `summary` and `start` projects without
raising. -/
theorem projectEvent_ok_of_total (e : GEvent)
    (h : e.id.isSome ∧ e.summary.isSome ∧ e.start.isSome) :
    ∃ pe, projectEvent e = .ok pe := by
  rcases h with ⟨h1, h2, h3⟩
  rcases hst : e.start with _ | st
  · rw [hst] at h3; simp at h3
  rcases hid : e.id with _ | i
  · rw [hid] at h1; simp at h1
  rcases hs : e.summary with _ | s
  · rw [hs] at h2; simp at h2
  exact ⟨⟨i, s, gtimeOpt st⟩, by simp [projectEvent, hst, hid, hs]⟩

/-- When every fetched event carries `id`, `summary` and `start`, the
projection loop returns normally. -/
theorem projectEvents_ok_of_total :
    ∀ items : List GEvent,
      (∀ e ∈ items, e.id.isSome ∧ e.summary.isSome ∧ e.start.isSome) →
      ∃ evs, projectEvents items = .ok evs
  | [], _ => ⟨[], rfl⟩
  | e :: rest, h => by
    rcases projectEvent_ok_of_total e (h e (by simp)) with ⟨pe, hpe⟩
    rcases projectEvents_ok_of_total rest (fun x hx => h x (by simp [hx])) with ⟨evs, hevs⟩
    exact ⟨pe :: evs, by simp [projectEvents, hpe, hevs]⟩

/-- C9: for each of the four Calendar Client operations, when
`self.service` is `None` the operation returns the
`{"error": "Google Calendar service not available"}` failure result, makes
no external calendar-API call, and attempts no notification send. -/
theorem c9_service_unavailable (f : String → Bool) (s st et : String)
    (att : Option (List String)) (d : Option String) (aml : Bool) (eid : String)
    (sum stt ett : Option String) (att2 : Option (List String)) (d2 : Option String)
    (aml2 : Bool) :
    list_upcoming_events none
        = ⟨.failure "Google Calendar service not available", [], []⟩
    ∧ create_calendar_event none f s st et att d aml
        = ⟨.failure "Google Calendar service not available", [], []⟩
    ∧ update_event none f eid sum stt ett att2 d2 aml2
        = ⟨.failure "Google Calendar service not available", [], []⟩
    ∧ delete_event none f eid
        = ⟨.failure "Google Calendar service not available", [], []⟩ :=
  ⟨rfl, rfl, rfl, rfl⟩

/-- The adapters' error message literally contains the numeric status code
and the response body text. -/
theorem httpErrorMsg_contains (status : Nat) (bodyText : String) :
    (∃ p q, "HTTP " ++ toString status ++ ": " ++ bodyText = p ++ toString status ++ q)
    ∧ (∃ p q, "HTTP " ++ toString status ++ ": " ++ bodyText = p ++ bodyText ++ q) := by
  constructor
  · exact ⟨"HTTP ", ": " ++ bodyText, by simp [strAppendAssoc]⟩
  · exact ⟨"HTTP " ++ toString status ++ ": ", "", by simp [strAppendAssoc, strAppendEmpty]⟩

/-- C8: on any non-2xx HTTP status from the Facade, each of the four Tool
Adapter tools (list, create, delete, update) surfaces a tool-level error
whose message contains the numeric status code and the response body text,
and returns no success result. -/
theorem c8_adapter_non2xx_error (status : Nat) (bodyText : String)
    (jsonL : ListResponse) (jsonC jsonU : MutationResponse) (jsonD : DeleteResponse)
    (s st et : String) (att : Option (List String)) (d : Option String)
    (aml : Option Bool) (eid : String) (sum stt ett : Option String)
    (att2 : Option (List String)) (d2 : Option String) (aml2 : Option Bool)
    (h : status < 200 ∨ 300 ≤ status) :
    ((∀ r, tool_list_upcoming_events status bodyText jsonL ≠ .success r)
      ∧ ∃ msg, tool_list_upcoming_events status bodyText jsonL = .toolError msg
          ∧ (∃ p q, msg = p ++ toString status ++ q)
          ∧ (∃ p q, msg = p ++ bodyText ++ q))
    ∧ ((∀ r, tool_create_calendar_event status bodyText jsonC s st et att d aml
          ≠ .success r)
      ∧ ∃ msg, tool_create_calendar_event status bodyText jsonC s st et att d aml
            = .toolError msg
          ∧ (∃ p q, msg = p ++ toString status ++ q)
          ∧ (∃ p q, msg = p ++ bodyText ++ q))
    ∧ ((∀ r, tool_delete_event status bodyText jsonD eid ≠ .success r)
      ∧ ∃ msg, tool_delete_event status bodyText jsonD eid = .toolError msg
          ∧ (∃ p q, msg = p ++ toString status ++ q)
          ∧ (∃ p q, msg = p ++ bodyText ++ q))
    ∧ ((∀ r, tool_update_event status bodyText jsonU eid sum stt ett att2 d2 aml2
          ≠ .success r)
      ∧ ∃ msg, tool_update_event status bodyText jsonU eid sum stt ett att2 d2 aml2
            = .toolError msg
          ∧ (∃ p q, msg = p ++ toString status ++ q)
          ∧ (∃ p q, msg = p ++ bodyText ++ q)) := by
  have hne : status ≠ 200 := by omega
  refine ⟨⟨?_, ?_⟩, ⟨?_, ?_⟩, ⟨?_, ?_⟩, ⟨?_, ?_⟩⟩
  · intro r hr
    simp [tool_list_upcoming_events, clientListUpcomingEvents, hne] at hr
  · exact ⟨"HTTP " ++ toString status ++ ": " ++ bodyText,
      by simp [tool_list_upcoming_events, clientListUpcomingEvents, hne],
      (httpErrorMsg_contains status bodyText).1, (httpErrorMsg_contains status bodyText).2⟩
  · intro r hr
    simp [tool_create_calendar_event, clientCreateCalendarEvent, hne] at hr
  · exact ⟨"HTTP " ++ toString status ++ ": " ++ bodyText,
      by simp [tool_create_calendar_event, clientCreateCalendarEvent, hne],
      (httpErrorMsg_contains status bodyText).1, (httpErrorMsg_contains status bodyText).2⟩
  · intro r hr
    simp [tool_delete_event, clientDeleteEvent, hne] at hr
  · exact ⟨"HTTP " ++ toString status ++ ": " ++ bodyText,
      by simp [tool_delete_event, clientDeleteEvent, hne],
      (httpErrorMsg_contains status bodyText).1, (httpErrorMsg_contains status bodyText).2⟩
  · intro r hr
    simp [tool_update_event, clientUpdateEvent, hne] at hr
  · exact ⟨"HTTP " ++ toString status ++ ": " ++ bodyText,
      by simp [tool_update_event, clientUpdateEvent, hne],
      (httpErrorMsg_contains status bodyText).1, (httpErrorMsg_contains status bodyText).2⟩

/-- C8 witness: a 500 response with body "Internal Server Error" is turned
into a tool-level error carrying both, on each of the four tools. -/
theorem c8_adapter_non2xx_error_witness :
    ((500 : Nat) < 200 ∨ 300 ≤ 500)
    ∧ (((∀ r, tool_list_upcoming_events 500 "Internal Server Error" ⟨"", []⟩
          ≠ .success r)
        ∧ ∃ msg, tool_list_upcoming_events 500 "Internal Server Error" ⟨"", []⟩
              = .toolError msg
            ∧ (∃ p q, msg = p ++ toString (500 : Nat) ++ q)
            ∧ (∃ p q, msg = p ++ "Internal Server Error" ++ q))
      ∧ ((∀ r, tool_create_calendar_event 500 "Internal Server Error" ⟨"", none, none⟩
            "" "" "" none none none ≠ .success r)
        ∧ ∃ msg, tool_create_calendar_event 500 "Internal Server Error" ⟨"", none, none⟩
              "" "" "" none none none = .toolError msg
            ∧ (∃ p q, msg = p ++ toString (500 : Nat) ++ q)
            ∧ (∃ p q, msg = p ++ "Internal Server Error" ++ q))
      ∧ ((∀ r, tool_delete_event 500 "Internal Server Error" ⟨""⟩ "" ≠ .success r)
        ∧ ∃ msg, tool_delete_event 500 "Internal Server Error" ⟨""⟩ "" = .toolError msg
            ∧ (∃ p q, msg = p ++ toString (500 : Nat) ++ q)
            ∧ (∃ p q, msg = p ++ "Internal Server Error" ++ q))
      ∧ ((∀ r, tool_update_event 500 "Internal Server Error" ⟨"", none, none⟩ "" none
            none none none none none ≠ .success r)
        ∧ ∃ msg, tool_update_event 500 "Internal Server Error" ⟨"", none, none⟩ "" none
              none none none none none = .toolError msg
            ∧ (∃ p q, msg = p ++ toString (500 : Nat) ++ q)
            ∧ (∃ p q, msg = p ++ "Internal Server Error" ++ q))) :=
  ⟨Or.inr (by omega),
   c8_adapter_non2xx_error 500 "Internal Server Error" ⟨"", []⟩ ⟨"", none, none⟩
     ⟨"", none, none⟩ ⟨""⟩ "" "" "" none none none "" none none none none none none
     (Or.inr (by omega))⟩

/-- C10: if the external list response contains an item lacking its
`summary` key, `list_upcoming_events` raises an uncaught exception — it
returns neither the success payload nor the `{"error": ...}` failure shape;
and the per-event projection is total when every item carries `id`,
`summary` and `start`. -/
theorem c10_list_projection_partiality :
    (∀ (items : List GEvent) ir gr ur dr,
        (∃ e ∈ items, e.summary = none) →
        ∃ m, (list_upcoming_events (some ⟨.ok items, ir, gr, ur, dr⟩)).outcome = .raised m
          ∧ (∀ r, (list_upcoming_events (some ⟨.ok items, ir, gr, ur, dr⟩)).outcome ≠ .ok r)
          ∧ (∀ m2, (list_upcoming_events (some ⟨.ok items, ir, gr, ur, dr⟩)).outcome
              ≠ .failure m2))
    ∧ (∀ (items : List GEvent) ir gr ur dr,
        (∀ e ∈ items, e.id.isSome ∧ e.summary.isSome ∧ e.start.isSome) →
        ∃ r, (list_upcoming_events (some ⟨.ok items, ir, gr, ur, dr⟩)).outcome = .ok r) := by
  constructor
  · intro items ir gr ur dr hex
    rcases projectEvents_error_of_no_summary items hex with ⟨m, hm⟩
    have hne : items.isEmpty = false := by
      rcases hex with ⟨x, hx, _⟩
      cases items
      · simp at hx
      · rfl
    exact ⟨m, by simp [list_upcoming_events, hne, hm],
      fun r => by simp [list_upcoming_events, hne, hm],
      fun m2 => by simp [list_upcoming_events, hne, hm]⟩
  · intro items ir gr ur dr htot
    cases hi : items with
    | nil => exact ⟨⟨"No upcoming events found.", []⟩, by simp [list_upcoming_events]⟩
    | cons e rest =>
      rcases projectEvents_ok_of_total items htot with ⟨evs, hevs⟩
      refine ⟨⟨"Upcoming events retrieved successfully", evs⟩, ?_⟩
      rw [hi] at hevs
      simp [list_upcoming_events, hevs]

/-- C10 witness: a response whose single item lacks `summary` makes the list
operation raise. -/
theorem c10_list_projection_partiality_witness :
    (∃ e ∈ [noSummaryEvent], e.summary = none)
    ∧ ∃ m, (list_upcoming_events (some ⟨.ok [noSummaryEvent], okStub.insertResult,
        okStub.getResult, okStub.updateResult, okStub.deleteResult⟩)).outcome = .raised m
        ∧ (∀ r, (list_upcoming_events (some ⟨.ok [noSummaryEvent], okStub.insertResult,
            okStub.getResult, okStub.updateResult, okStub.deleteResult⟩)).outcome ≠ .ok r)
        ∧ (∀ m2, (list_upcoming_events (some ⟨.ok [noSummaryEvent], okStub.insertResult,
            okStub.getResult, okStub.updateResult, okStub.deleteResult⟩)).outcome
            ≠ .failure m2) :=
  ⟨⟨noSummaryEvent, by simp, rfl⟩,
   c10_list_projection_partiality.1 [noSummaryEvent] okStub.insertResult okStub.getResult
     okStub.updateResult okStub.deleteResult ⟨noSummaryEvent, by simp, rfl⟩⟩

/-- C3 (bug witness): a `POST /schedule` request on which the Calendar
Client returns a failure result is answered with HTTP 500, not 400: the
`HTTPException(400, detail)` raised inside the endpoint's `try` block is
caught by its own `except Exception` handler and re-wrapped into a 500 whose
detail embeds `str(e) = "400: <message>"`. -/
theorem c3_schedule_error_status_bug :
    schedule_event (some (some rejectStub)) (fun _ => false)
        ⟨"Standup", "2030-01-01T10:00:00-07:00", "2030-01-01T11:00:00-07:00",
          none, none, false⟩
      = .httpError 500 "Failed to schedule event: 400: An error occurred: quota exceeded"
    ∧ ∀ d, schedule_event (some (some rejectStub)) (fun _ => false)
        ⟨"Standup", "2030-01-01T10:00:00-07:00", "2030-01-01T11:00:00-07:00",
          none, none, false⟩
      ≠ .httpError 400 d := by
  have h0 : schedule_event (some (some rejectStub)) (fun _ => false)
      ⟨"Standup", "2030-01-01T10:00:00-07:00", "2030-01-01T11:00:00-07:00",
        none, none, false⟩
      = .httpError 500 "Failed to schedule event: 400: An error occurred: quota exceeded" :=
    rfl
  refine ⟨h0, fun d h => ?_⟩
  rw [h0] at h
  injection h with h1 _
  omega

/-- C1 counterexample: a create with two attendees whose first send raises
attempts only the first send — the second recipient is never attempted, and
the operation raises instead of returning. -/
theorem c1_send_fanout_counterexample :
    ((create_calendar_event (some okStub) (fun a => a == "a@x.com") "Standup"
        "2030-01-01T10:00:00-07:00" "2030-01-01T11:00:00-07:00"
        (some ["a@x.com", "b@y.com"]) none false).sends.map EmailMessage.to_email
      = ["a@x.com"])
    ∧ (create_calendar_event (some okStub) (fun a => a == "a@x.com") "Standup"
        "2030-01-01T10:00:00-07:00" "2030-01-01T11:00:00-07:00"
        (some ["a@x.com", "b@y.com"]) none false).sends.length ≠ 2
    ∧ (create_calendar_event (some okStub) (fun a => a == "a@x.com") "Standup"
        "2030-01-01T10:00:00-07:00" "2030-01-01T11:00:00-07:00"
        (some ["a@x.com", "b@y.com"]) none false).outcome
      = .raised "SMTP error sending to a@x.com" := by
  refine ⟨rfl, ?_, rfl⟩
  intro h
  rw [show (create_calendar_event (some okStub) (fun a => a == "a@x.com") "Standup"
      "2030-01-01T10:00:00-07:00" "2030-01-01T11:00:00-07:00"
      (some ["a@x.com", "b@y.com"]) none false).sends.length = 1 from rfl] at h
  omega

/-- C2 counterexample: deleting an event with one failing cancellation send
raises, never issues the external delete call, and returns no success
result — the deletion is not performed. -/
theorem c2_delete_notification_counterexample :
    (delete_event (some okStub) (fun a => a == "a@x.com") "id1").outcome
        = .raised "SMTP error sending to a@x.com"
    ∧ (delete_event (some okStub) (fun a => a == "a@x.com") "id1").extCalls = [.get "id1"]
    ∧ ExtCall.delete "id1" ∉ (delete_event (some okStub) (fun a => a == "a@x.com") "id1").extCalls
    ∧ ∀ r, (delete_event (some okStub) (fun a => a == "a@x.com") "id1").outcome ≠ .ok r := by
  have h0 : (delete_event (some okStub) (fun a => a == "a@x.com") "id1").outcome
      = .raised "SMTP error sending to a@x.com" := rfl
  refine ⟨h0, rfl, by decide, fun r h => ?_⟩
  rw [h0] at h
  exact GcOutcome.noConfusion h

/-- Once the fetch succeeded and the field mutation did not raise, the
update operation issues exactly the fetch and the persist call, the latter
carrying the mutated event as payload — whatever the persist call then
returns and however the notification sends go. -/
theorem update_event_extCalls_shape (stub : ServiceStub) (f : String → Bool)
    (eid : String) (sum stt ett : Option String) (atts : Option (List String))
    (d : Option String) (aml : Bool) (e body : GEvent)
    (hget : stub.getResult eid = .ok e)
    (happ : applyUpdates e sum stt ett atts d aml = .ok body) :
    (update_event (some stub) f eid sum stt ett atts d aml).extCalls
      = [.get eid, .update eid body (if aml then 1 else 0)] := by
  simp only [update_event, hget, happ]
  cases hu : stub.updateResult eid body
  · rfl
  · repeat' split
    all_goals rfl

/-- C4: an update supplying only `summary` persists a payload whose
`start`, `end`, `attendees` and `description` are exactly the previously
fetched values; only the summary field of the fetched event is replaced. -/
theorem c4_partial_update_frame (stub : ServiceStub) (f : String → Bool)
    (eid s : String) (e : GEvent) (hget : stub.getResult eid = .ok e) :
    (update_event (some stub) f eid (some s) none none none none false).extCalls
      = [.get eid, .update eid { e with summary := some s } 0]
    ∧ ({ e with summary := some s } : GEvent).start = e.start
    ∧ ({ e with summary := some s } : GEvent).end_ = e.end_
    ∧ ({ e with summary := some s } : GEvent).attendees = e.attendees
    ∧ ({ e with summary := some s } : GEvent).description = e.description := by
  refine ⟨?_, rfl, rfl, rfl, rfl⟩
  exact update_event_extCalls_shape stub f eid (some s) none none none none false e
    { e with summary := some s } hget rfl

/-- C4 witness: updating the sample event with only a new summary sends the
fetched start/end/attendees/description back unchanged. -/
theorem c4_partial_update_frame_witness :
    okStub.getResult "id1" = .ok wEvent
    ∧ ((update_event (some okStub) (fun _ => false) "id1" (some "New") none none none
          none false).extCalls
        = [.get "id1", .update "id1" { wEvent with summary := some "New" } 0]
      ∧ ({ wEvent with summary := some "New" } : GEvent).start = wEvent.start
      ∧ ({ wEvent with summary := some "New" } : GEvent).end_ = wEvent.end_
      ∧ ({ wEvent with summary := some "New" } : GEvent).attendees = wEvent.attendees
      ∧ ({ wEvent with summary := some "New" } : GEvent).description = wEvent.description) :=
  ⟨rfl, c4_partial_update_frame okStub (fun _ => false) "id1" "New" wEvent rfl⟩

/-- Whenever `create_calendar_event` returns its success dictionary, that
dictionary was built from the insert result `w` as
`{message, event_link := w.htmlLink, hangoutLink := meetInfo aml w}`. -/
theorem create_outcome_ok_shape (service : Option ServiceStub) (f : String → Bool)
    (s st et : String) (att : Option (List String)) (d : Option String) (aml : Bool)
    (v : MutationResponse)
    (h : (create_calendar_event service f s st et att d aml).outcome = .ok v) :
    ∃ w, v = ⟨"Event created successfully", w.htmlLink, meetInfo aml w⟩ := by
  cases service with
  | none => exact absurd h (by simp [create_calendar_event])
  | some stub =>
    simp only [create_calendar_event] at h
    split at h
    · exact absurd h (by simp)
    · rename_i w _
      split at h
      · split at h
        · exact absurd h (by simp)
        · simp at h
          exact ⟨w, h.symm⟩
      · simp at h
        exact ⟨w, h.symm⟩

/-- Whenever `update_event` returns its success dictionary, that dictionary
was built from the post-update event `u` returned by the external API as
`{message, event_link := u.htmlLink, hangoutLink := meetInfo aml u}`. -/
theorem update_outcome_ok_shape (service : Option ServiceStub) (f : String → Bool)
    (eid : String) (sum stt ett : Option String) (att : Option (List String))
    (d : Option String) (aml : Bool) (v : MutationResponse)
    (h : (update_event (service) f eid sum stt ett att d aml).outcome = .ok v) :
    ∃ u, v = ⟨"Event updated successfully", u.htmlLink, meetInfo aml u⟩ := by
  cases service with
  | none => exact absurd h (by simp [update_event])
  | some stub =>
    simp only [update_event] at h
    split at h
    · exact absurd h (by simp)
    · split at h
      · exact absurd h (by simp)
      · split at h
        · exact absurd h (by simp)
        · rename_i u _
          split at h
          · simp at h
            exact ⟨u, h.symm⟩
          · split at h
            · exact absurd h (by simp)
            · split at h
              · exact absurd h (by simp)
              · split at h
                · exact absurd h (by simp)
                · simp at h
                  exact ⟨u, h.symm⟩

/-- C6: with `add_meet_link = false` (the default), neither a create nor an
update success dictionary ever carries a `hangoutLink` key, whatever
conference data the external API returned. -/
theorem c6_no_meet_link_when_disabled :
    (∀ (service : Option ServiceStub) (f : String → Bool) (s st et : String)
        (att : Option (List String)) (d : Option String) (v : MutationResponse),
        (create_calendar_event service f s st et att d false).outcome = .ok v →
        v.hangoutLink = none)
    ∧ (∀ (service : Option ServiceStub) (f : String → Bool) (eid : String)
        (sum stt ett : Option String) (att : Option (List String)) (d : Option String)
        (v : MutationResponse),
        (update_event service f eid sum stt ett att d false).outcome = .ok v →
        v.hangoutLink = none) := by
  constructor
  · intro service f s st et att d v h
    rcases create_outcome_ok_shape service f s st et att d false v h with ⟨w, rfl⟩
    rfl
  · intro service f eid sum stt ett att d v h
    rcases update_outcome_ok_shape service f eid sum stt ett att d false v h with ⟨u, rfl⟩
    rfl

/-- C6 witness: creating on a stub whose insert response carries conference
data with a video entry point, but with `add_meet_link = false`, yields a
success body without the `hangoutLink` key. -/
theorem c6_no_meet_link_when_disabled_witness :
    (create_calendar_event (some okStub) (fun _ => false) "Standup" "s" "e" none none
        false).outcome
      = .ok ⟨"Event created successfully", some "https://calendar.google.com/event/1", none⟩
    ∧ wEvent.conferenceData
      = some ⟨false, some [⟨some "video", some "https://meet.google.com/abc"⟩]⟩
    ∧ (⟨"Event created successfully", some "https://calendar.google.com/event/1",
        none⟩ : MutationResponse).hangoutLink = none :=
  ⟨rfl, rfl,
   c6_no_meet_link_when_disabled.1 (some okStub) (fun _ => false) "Standup" "s" "e"
     none none ⟨"Event created successfully", some "https://calendar.google.com/event/1", none⟩
     rfl⟩

/-- C7: a create whose `attendees` argument is absent or the empty list
attempts zero notification sends; and a delete of an event whose fetched
attendee list is empty attempts zero sends, still issues the external
delete call, and returns the success message. -/
theorem c7_no_attendees_no_sends :
    (∀ (stub : ServiceStub) (f : String → Bool) (s st et : String)
        (att : Option (List String)) (d : Option String) (aml : Bool),
        (att = none ∨ att = some []) →
        (create_calendar_event (some stub) f s st et att d aml).sends = [])
    ∧ (∀ (stub : ServiceStub) (f : String → Bool) (eid : String) (e : GEvent)
        (ts te : GTime),
        stub.getResult eid = .ok e →
        e.attendees.getD [] = [] →
        e.start = some ts → e.end_ = some te →
        stub.deleteResult eid = .ok () →
        (delete_event (some stub) f eid).sends = []
        ∧ (delete_event (some stub) f eid).extCalls = [.get eid, .delete eid]
        ∧ (delete_event (some stub) f eid).outcome
          = .ok ⟨"Event with ID " ++ eid ++ " deleted successfully."⟩) := by
  constructor
  · intro stub f s st et att d aml hatt
    rcases hatt with rfl | rfl <;>
      · simp only [create_calendar_event]
        split <;> simp [listTruthy]
  · intro stub f eid e ts te hget hatt hst hen hdel
    refine ⟨?_, ?_, ?_⟩ <;>
      simp [delete_event, hget, hatt, hst, hen, hdel, sendEmails]

/-- C7 witness: a concrete create without attendees and a concrete delete of
an attendee-less event. -/
theorem c7_no_attendees_no_sends_witness :
    ((none : Option (List String)) = none ∨ (none : Option (List String)) = some [])
    ∧ (create_calendar_event (some okStub) (fun _ => false) "Standup" "s" "e" none none
        false).sends = []
    ∧ noAttStub.getResult "id1" = .ok noAttEvent
    ∧ noAttEvent.attendees.getD [] = []
    ∧ noAttStub.deleteResult "id1" = .ok ()
    ∧ ((delete_event (some noAttStub) (fun _ => false) "id1").sends = []
      ∧ (delete_event (some noAttStub) (fun _ => false) "id1").extCalls
          = [.get "id1", .delete "id1"]
      ∧ (delete_event (some noAttStub) (fun _ => false) "id1").outcome
          = .ok ⟨"Event with ID " ++ "id1" ++ " deleted successfully."⟩) :=
  ⟨Or.inl rfl,
   c7_no_attendees_no_sends.1 okStub (fun _ => false) "Standup" "s" "e" none none false
     (Or.inl rfl),
   rfl, rfl, rfl,
   c7_no_attendees_no_sends.2 noAttStub (fun _ => false) "id1" noAttEvent
     ⟨some "2030-01-01T10:00:00-07:00", none⟩ ⟨some "2030-01-01T11:00:00-07:00", none⟩
     rfl rfl rfl rfl rfl⟩

/-- The update notification body literally contains the post-update
summary, description and canonical event link. -/
theorem updateEmailBody_contains (u : GEvent) (ml : Option String) :
    (∃ p q, updateEmailBody u ml = p ++ u.summary.getD "" ++ q)
    ∧ (∃ p q, updateEmailBody u ml = p ++ u.description.getD "" ++ q)
    ∧ (∃ p q, updateEmailBody u ml = p ++ pyStr u.htmlLink ++ q) := by
  refine ⟨⟨"\n                <h3>Meeting Updated: ",
      "</h3>\n                <p><b>Description:</b> " ++ u.description.getD ""
        ++ "</p>\n                <p><b>Start:</b> "
        ++ (match u.start with | some t => gtimeStr t | none => "")
        ++ "</p>\n                <p><b>End:</b> "
        ++ (match u.end_ with | some t => gtimeStr t | none => "")
        ++ "</p>\n                "
        ++ (if strTruthy ml then
              "<p><b>Google Meet Link:</b> <a href=\"" ++ orEmpty ml ++ "\">"
                ++ orEmpty ml ++ "</a></p>"
            else "")
        ++ "\n                <p>Event Link: <a href='" ++ pyStr u.htmlLink ++ "'>"
        ++ pyStr u.htmlLink ++ "</a></p>\n                ", ?_⟩,
    ⟨"\n                <h3>Meeting Updated: " ++ u.summary.getD ""
      ++ "</h3>\n                <p><b>Description:</b> ",
      "</p>\n                <p><b>Start:</b> "
        ++ (match u.start with | some t => gtimeStr t | none => "")
        ++ "</p>\n                <p><b>End:</b> "
        ++ (match u.end_ with | some t => gtimeStr t | none => "")
        ++ "</p>\n                "
        ++ (if strTruthy ml then
              "<p><b>Google Meet Link:</b> <a href=\"" ++ orEmpty ml ++ "\">"
                ++ orEmpty ml ++ "</a></p>"
            else "")
        ++ "\n                <p>Event Link: <a href='" ++ pyStr u.htmlLink ++ "'>"
        ++ pyStr u.htmlLink ++ "</a></p>\n                ", ?_⟩,
    ⟨"\n                <h3>Meeting Updated: " ++ u.summary.getD ""
      ++ "</h3>\n                <p><b>Description:</b> " ++ u.description.getD ""
      ++ "</p>\n                <p><b>Start:</b> "
      ++ (match u.start with | some t => gtimeStr t | none => "")
      ++ "</p>\n                <p><b>End:</b> "
      ++ (match u.end_ with | some t => gtimeStr t | none => "")
      ++ "</p>\n                "
      ++ (if strTruthy ml then
            "<p><b>Google Meet Link:</b> <a href=\"" ++ orEmpty ml ++ "\">"
              ++ orEmpty ml ++ "</a></p>"
          else "")
      ++ "\n                <p>Event Link: <a href='",
      "'>" ++ pyStr u.htmlLink ++ "</a></p>\n                ", ?_⟩⟩ <;>
    simp only [updateEmailBody, strAppendAssoc]

/-- C5: a successful update (every send succeeding) notifies exactly the
attendee list of the post-update event `u` returned by the external API, in
order, with the UPDATED subject built from `u`'s summary and a body built
from `u`'s fields (summary, description, start, end, meet link when
extracted, canonical link) — not from the pre-update event or the request's
attendee argument. -/
theorem c5_update_notification_postlist (stub : ServiceStub) (eid : String)
    (sum stt ett : Option String) (atts : Option (List String)) (d : Option String)
    (aml : Bool) (e body u : GEvent) (ts te : GTime)
    (hget : stub.getResult eid = .ok e)
    (happ : applyUpdates e sum stt ett atts d aml = .ok body)
    (hupd : stub.updateResult eid body = .ok u)
    (hst : u.start = some ts) (hen : u.end_ = some te) :
    (update_event (some stub) (fun _ => false) eid sum stt ett atts d aml).sends
      = (u.attendees.getD []).map
          (fun a => ⟨a, "UPDATED: " ++ u.summary.getD "Meeting",
            updateEmailBody u (flatOpt (meetInfo aml u))⟩)
    ∧ (update_event (some stub) (fun _ => false) eid sum stt ett atts d aml).outcome
      = .ok ⟨"Event updated successfully", u.htmlLink, meetInfo aml u⟩
    ∧ (∃ p q, updateEmailBody u (flatOpt (meetInfo aml u)) = p ++ u.summary.getD "" ++ q)
    ∧ (∃ p q, updateEmailBody u (flatOpt (meetInfo aml u)) = p ++ u.description.getD "" ++ q)
    ∧ (∃ p q, updateEmailBody u (flatOpt (meetInfo aml u)) = p ++ pyStr u.htmlLink ++ q) := by
  have hsend := sendEmails_all_ok (fun _ => false)
    ("UPDATED: " ++ u.summary.getD "Meeting")
    (updateEmailBody u (flatOpt (meetInfo aml u)))
    (u.attendees.getD []) (fun _ _ => rfl)
  refine ⟨?_, ?_, (updateEmailBody_contains u _).1, (updateEmailBody_contains u _).2.1,
    (updateEmailBody_contains u _).2.2⟩
  · simp only [update_event, hget, happ, hupd, hst, hen]
    split
    · rename_i hemp
      have hnil : u.attendees.getD [] = [] := by
        cases hA : u.attendees.getD [] with
        | nil => rfl
        | cons a as => rw [hA] at hemp; simp at hemp
      rw [hnil]
      simp
    · simp [hsend]
  · simp only [update_event, hget, happ, hupd, hst, hen]
    split
    · rfl
    · simp [hsend]

/-- C5 witness: updating the sample event's summary notifies the two
attendees of the event as returned by the API after the update. -/
theorem c5_update_notification_postlist_witness :
    okStub.getResult "id1" = .ok wEvent
    ∧ applyUpdates wEvent (some "New") none none none none false
        = .ok { wEvent with summary := some "New" }
    ∧ okStub.updateResult "id1" { wEvent with summary := some "New" }
        = .ok { wEvent with summary := some "New" }
    ∧ ({ wEvent with summary := some "New" } : GEvent).start
        = some ⟨some "2030-01-01T10:00:00-07:00", none⟩
    ∧ ({ wEvent with summary := some "New" } : GEvent).end_
        = some ⟨some "2030-01-01T11:00:00-07:00", none⟩
    ∧ ((update_event (some okStub) (fun _ => false) "id1" (some "New") none none none
          none false).sends
        = (({ wEvent with summary := some "New" } : GEvent).attendees.getD []).map
            (fun a => ⟨a,
              "UPDATED: " ++ ({ wEvent with summary := some "New" } : GEvent).summary.getD
                "Meeting",
              updateEmailBody { wEvent with summary := some "New" }
                (flatOpt (meetInfo false { wEvent with summary := some "New" }))⟩)
      ∧ (update_event (some okStub) (fun _ => false) "id1" (some "New") none none none
          none false).outcome
        = .ok ⟨"Event updated successfully",
            ({ wEvent with summary := some "New" } : GEvent).htmlLink,
            meetInfo false { wEvent with summary := some "New" }⟩
      ∧ (∃ p q, updateEmailBody { wEvent with summary := some "New" }
            (flatOpt (meetInfo false { wEvent with summary := some "New" }))
          = p ++ ({ wEvent with summary := some "New" } : GEvent).summary.getD "" ++ q)
      ∧ (∃ p q, updateEmailBody { wEvent with summary := some "New" }
            (flatOpt (meetInfo false { wEvent with summary := some "New" }))
          = p ++ ({ wEvent with summary := some "New" } : GEvent).description.getD "" ++ q)
      ∧ (∃ p q, updateEmailBody { wEvent with summary := some "New" }
            (flatOpt (meetInfo false { wEvent with summary := some "New" }))
          = p ++ pyStr ({ wEvent with summary := some "New" } : GEvent).htmlLink ++ q)) :=
  ⟨rfl, rfl, rfl, rfl, rfl,
   c5_update_notification_postlist okStub "id1" (some "New") none none none none false
     wEvent { wEvent with summary := some "New" } { wEvent with summary := some "New" }
     ⟨some "2030-01-01T10:00:00-07:00", none⟩ ⟨some "2030-01-01T11:00:00-07:00", none⟩
     rfl rfl rfl rfl rfl⟩

/-- Mapping the recipient field over a list of identically-built messages
recovers the recipient list. -/
theorem map_to_email_mk (subj bd : String) (l : List String) :
    (l.map fun a => (⟨a, subj, bd⟩ : EmailMessage)).map EmailMessage.to_email = l := by
  induction l with
  | nil => rfl
  | cons a as ih => simp only [List.map_cons, ih]

/-- C1 (amended): create and update attempt one send per attendee, in
listed order, only up to the first failure: when every send succeeds all N
recipients are attempted; when the send to recipient `b` raises, exactly
the recipients before `b` plus `b` are attempted, the recipients after `b`
are NOT attempted, and the operation raises.  (For update the fan-out list
is the post-update attendee list.) -/
theorem c1_send_fanout_amended :
    (∀ (stub : ServiceStub) (f : String → Bool) (s st et : String) (atts : List String)
        (d : Option String) (aml : Bool) (w : GEvent),
        (∀ bd, stub.insertResult bd = .ok w) →
        (∀ a ∈ atts, f a = false) →
        (create_calendar_event (some stub) f s st et (some atts) d aml).sends.map
            EmailMessage.to_email = atts)
    ∧ (∀ (stub : ServiceStub) (f : String → Bool) (s st et : String)
        (pre post : List String) (b : String) (d : Option String) (aml : Bool) (w : GEvent),
        (∀ bd, stub.insertResult bd = .ok w) →
        (∀ a ∈ pre, f a = false) → f b = true →
        (create_calendar_event (some stub) f s st et (some (pre ++ b :: post)) d
            aml).sends.map EmailMessage.to_email = pre ++ [b]
        ∧ (create_calendar_event (some stub) f s st et (some (pre ++ b :: post)) d
            aml).outcome = .raised ("SMTP error sending to " ++ b))
    ∧ (∀ (stub : ServiceStub) (f : String → Bool) (eid : String)
        (sum stt ett : Option String) (atts0 : Option (List String)) (d : Option String)
        (aml : Bool) (e body u : GEvent) (uatts : List String) (ts te : GTime),
        stub.getResult eid = .ok e →
        applyUpdates e sum stt ett atts0 d aml = .ok body →
        stub.updateResult eid body = .ok u →
        u.attendees = some uatts → u.start = some ts → u.end_ = some te →
        (∀ a ∈ uatts, f a = false) →
        (update_event (some stub) f eid sum stt ett atts0 d aml).sends.map
            EmailMessage.to_email = uatts)
    ∧ (∀ (stub : ServiceStub) (f : String → Bool) (eid : String)
        (sum stt ett : Option String) (atts0 : Option (List String)) (d : Option String)
        (aml : Bool) (e body u : GEvent) (pre post : List String) (b : String)
        (ts te : GTime),
        stub.getResult eid = .ok e →
        applyUpdates e sum stt ett atts0 d aml = .ok body →
        stub.updateResult eid body = .ok u →
        u.attendees = some (pre ++ b :: post) → u.start = some ts → u.end_ = some te →
        (∀ a ∈ pre, f a = false) → f b = true →
        (update_event (some stub) f eid sum stt ett atts0 d aml).sends.map
            EmailMessage.to_email = pre ++ [b]
        ∧ (update_event (some stub) f eid sum stt ett atts0 d aml).outcome
          = .raised ("SMTP error sending to " ++ b)) := by
  refine ⟨?_, ?_, ?_, ?_⟩
  · intro stub f s st et atts d aml w hins hok
    have hsend := sendEmails_all_ok f ("Invitation: " ++ s)
      (createEmailBody s d st et (flatOpt (meetInfo aml w)) w.htmlLink) atts hok
    cases atts with
    | nil => simp [create_calendar_event, hins, listTruthy]
    | cons a as =>
      simp only [create_calendar_event, hins, listTruthy, Option.getD_some, hsend]
      simp [map_to_email_mk, Function.comp_def]
  · intro stub f s st et pre post b d aml w hins hpre hb
    have htr : listTruthy (some (pre ++ b :: post)) = true := by cases pre <;> rfl
    have hsend := sendEmails_first_fail f ("Invitation: " ++ s)
      (createEmailBody s d st et (flatOpt (meetInfo aml w)) w.htmlLink) pre b post hpre hb
    constructor
    · simp only [create_calendar_event, hins, htr, Option.getD_some, hsend, if_true]
      simp [map_to_email_mk, Function.comp_def]
    · simp only [create_calendar_event, hins, htr, Option.getD_some, hsend, if_true]
  · intro stub f eid sum stt ett atts0 d aml e body u uatts ts te hget happ hupd hatts
      hst hen hok
    have hsend := sendEmails_all_ok f ("UPDATED: " ++ u.summary.getD "Meeting")
      (updateEmailBody u (flatOpt (meetInfo aml u))) uatts hok
    simp only [update_event, hget, happ, hupd, hatts, hst, hen, Option.getD_some, hsend]
    cases uatts with
    | nil => simp
    | cons a as => simp [map_to_email_mk, Function.comp_def]
  · intro stub f eid sum stt ett atts0 d aml e body u pre post b ts te hget happ hupd
      hatts hst hen hpre hb
    have hne : (pre ++ b :: post).isEmpty = false := by cases pre <;> rfl
    have hsend := sendEmails_first_fail f ("UPDATED: " ++ u.summary.getD "Meeting")
      (updateEmailBody u (flatOpt (meetInfo aml u))) pre b post hpre hb
    constructor
    · simp only [update_event, hget, happ, hupd, hatts, hst, hen, Option.getD_some,
        hne, hsend]
      simp [map_to_email_mk, Function.comp_def]
    · simp only [update_event, hget, happ, hupd, hatts, hst, hen, Option.getD_some,
        hne, hsend]
      simp

/-- C1 (amended) witness: a create with attendee list ["a@x.com", "b@y.com"]
whose second send fails attempts exactly both sends in order and raises. -/
theorem c1_send_fanout_amended_witness :
    (∀ bd, okStub.insertResult bd = .ok wEvent)
    ∧ (∀ a ∈ ["a@x.com"], (fun x => x == "b@y.com") a = false)
    ∧ ((fun x => x == "b@y.com") "b@y.com" = true)
    ∧ ((create_calendar_event (some okStub) (fun x => x == "b@y.com") "Standup" "s" "e"
          (some (["a@x.com"] ++ "b@y.com" :: [])) none false).sends.map
            EmailMessage.to_email = ["a@x.com"] ++ ["b@y.com"]
      ∧ (create_calendar_event (some okStub) (fun x => x == "b@y.com") "Standup" "s" "e"
          (some (["a@x.com"] ++ "b@y.com" :: [])) none false).outcome
        = .raised ("SMTP error sending to " ++ "b@y.com")) :=
  ⟨fun _ => rfl, by decide, rfl,
   c1_send_fanout_amended.2.1 okStub (fun x => x == "b@y.com") "Standup" "s" "e"
     ["a@x.com"] [] "b@y.com" none false wEvent (fun _ => rfl) (by decide) rfl⟩

/-- C2 (amended): when a cancellation send raises during delete, the SMTP
exception escapes the `except HttpError` handler: the recipients after the
failing one are not attempted, the external delete call is never issued
(the deletion is NOT performed), and the operation raises instead of
returning success. -/
theorem c2_delete_notification_amended (stub : ServiceStub) (f : String → Bool)
    (eid : String) (e : GEvent) (pre post : List String) (b : String) (ts te : GTime)
    (hget : stub.getResult eid = .ok e)
    (hatts : e.attendees = some (pre ++ b :: post))
    (hst : e.start = some ts) (hen : e.end_ = some te)
    (hpre : ∀ a ∈ pre, f a = false) (hb : f b = true) :
    (delete_event (some stub) f eid).outcome = .raised ("SMTP error sending to " ++ b)
    ∧ (delete_event (some stub) f eid).extCalls = [.get eid]
    ∧ ExtCall.delete eid ∉ (delete_event (some stub) f eid).extCalls
    ∧ (delete_event (some stub) f eid).sends.map EmailMessage.to_email = pre ++ [b] := by
  have hne : (pre ++ b :: post).isEmpty = false := by cases pre <;> rfl
  have hsend := sendEmails_first_fail f ("CANCELLED: " ++ e.summary.getD "Meeting")
    (deleteEmailBody (e.summary.getD "Meeting") (e.description.getD "")
      (gtimeStr ts) (gtimeStr te)) pre b post hpre hb
  refine ⟨?_, ?_, ?_, ?_⟩ <;>
    · simp only [delete_event, hget, hatts, hst, hen, Option.getD_some, hne, hsend]
      simp [map_to_email_mk, Function.comp_def]

/-- C2 (amended) witness: deleting the sample event when the send to its
second attendee fails raises, attempts both sends, and never issues the
delete call. -/
theorem c2_delete_notification_amended_witness :
    okStub.getResult "id1" = .ok wEvent
    ∧ wEvent.attendees = some (["a@x.com"] ++ "b@y.com" :: [])
    ∧ (∀ a ∈ ["a@x.com"], (fun x => x == "b@y.com") a = false)
    ∧ ((fun x => x == "b@y.com") "b@y.com" = true)
    ∧ ((delete_event (some okStub) (fun x => x == "b@y.com") "id1").outcome
        = .raised ("SMTP error sending to " ++ "b@y.com")
      ∧ (delete_event (some okStub) (fun x => x == "b@y.com") "id1").extCalls
        = [.get "id1"]
      ∧ ExtCall.delete "id1"
        ∉ (delete_event (some okStub) (fun x => x == "b@y.com") "id1").extCalls
      ∧ (delete_event (some okStub) (fun x => x == "b@y.com") "id1").sends.map
          EmailMessage.to_email = ["a@x.com"] ++ ["b@y.com"]) :=
  ⟨rfl, rfl, by decide, rfl,
   c2_delete_notification_amended okStub (fun x => x == "b@y.com") "id1" wEvent
     ["a@x.com"] [] "b@y.com" ⟨some "2030-01-01T10:00:00-07:00", none⟩
     ⟨some "2030-01-01T11:00:00-07:00", none⟩ rfl rfl rfl rfl (by decide) rfl⟩

end GCal
